import Mathlib

/-!
Verification of the authenticated chatbot relay (`src/main.py`).

The Python program is a FastAPI application with three endpoints
(register, login, chat) over a Mongo collection of user documents,
HS256 JWTs for bearer authentication, and a single OpenAI
chat-completion call per chat request.  This file gives a shallow
embedding of that program: pure Lean functions mirror the handlers,
the Mongo collection is a `List User` threaded explicitly, the JWT
library is modelled as a signed record (HMAC assumed perfect, as in
the library contract: a token decodes under a secret exactly when it
was signed with that same secret), and the OpenAI client is an
arbitrary function argument.  Times are unix seconds as `Nat`.
-/

/-- Mirrors FastAPI's `HTTPException`: a status code and a human-readable
detail string. -/
structure HTTPExc where
  status : Nat
  detail : String
deriving Repr, DecidableEq

/-- A user document as stored in the `users` collection by `register_user`
(`main.py` line 92): name, email and plaintext password, all strings. -/
structure User where
  name : String
  email : String
  password : String
deriving Repr, DecidableEq

/-- Request body of POST /register (`RegisterRequest`, `main.py` lines 52-55).
Pydantic validates `email : EmailStr` syntactically before the handler runs;
a request value of this type represents a body that passed validation. -/
structure RegisterRequest where
  name : String
  email : String
  password : String
deriving Repr, DecidableEq

/-- Request body of POST /login (`LoginRequest`, `main.py` lines 57-59). -/
structure LoginRequest where
  email : String
  password : String
deriving Repr, DecidableEq

/-- Request body of POST /chat (`ChatRequest`, `main.py` lines 61-62). -/
structure ChatRequest where
  message : String
deriving Repr, DecidableEq

/-- The claim set carried by a JWT issued or accepted by this program:
an optional "email" claim (`payload.get("email")` returns `None` when the
claim is absent), an expiry and an issued-at time in unix seconds. -/
structure JwtPayload where
  email : Option String
  exp : Nat
  iat : Nat
deriving Repr, DecidableEq

/-- A bearer token as the PyJWT library sees it: either a structurally
well-formed HS256 token, carrying its claim set and the secret it was
signed with (HMAC modelled as perfect: the signature verifies under a
secret exactly when it equals the signing secret), or a structurally
malformed string. -/
inductive RawToken where
  | valid (payload : JwtPayload) (secret : String)
  | malformed (raw : String)
deriving Repr, DecidableEq

/-- Embedding of `create_jwt` (`main.py` lines 65-74): builds the payload
with the email claim, `exp = now + expires_hours` hours and `iat = now`,
and signs it with the secret via `jwt.encode(..., algorithm="HS256")`.
The default `expires_hours = 2` matches the Python default parameter. -/
def create_jwt (email : String) (now : Nat) (secret : String)
    (expires_hours : Nat := 2) : RawToken :=
  RawToken.valid
    { email := some email, exp := now + expires_hours * 3600, iat := now }
    secret

/-- Embedding of `decode_jwt` (`main.py` lines 76-83) together with the
PyJWT semantics of `jwt.decode(token, secret, algorithms=["HS256"])`:
a malformed token or a signature mismatch raises `InvalidTokenError`,
mapped to HTTP 401 "Invalid token"; a verified token whose `exp` claim
is not in the future raises `ExpiredSignatureError` (PyJWT rejects when
`exp <= now`), mapped to HTTP 401 "Token expired"; otherwise the claim
set is returned.  No other claim is required or checked. -/
def decode_jwt (token : RawToken) (secret : String) (now : Nat) :
    Except HTTPExc JwtPayload :=
  match token with
  | RawToken.malformed _ => Except.error ⟨401, "Invalid token"⟩
  | RawToken.valid payload s =>
    if s = secret then
      if payload.exp ≤ now then Except.error ⟨401, "Token expired"⟩
      else Except.ok payload
    else Except.error ⟨401, "Invalid token"⟩

/-- Embedding of `users_col.find_one({"email": q})`: the first document
whose email field equals the query value, in insertion order.  The query
value is an `Option String` because `get_current_user` queries with
`payload.get("email")`, which may be `None`; stored documents always have
a string email, so a `none` query matches nothing.  The collection is
returned unchanged: reads do not modify the store. -/
def find_one (store : List User) (q : Option String) :
    Option User × List User :=
  (store.find? (fun u => some u.email == q), store)

/-- Embedding of `users_col.insert_one(doc)`: appends the document. -/
def insert_one (store : List User) (doc : User) : List User :=
  store ++ [doc]

/-- Embedding of `register_user` (`main.py` lines 86-94): rejects with
HTTP 400 "Email already registered" when a document with the email
exists, otherwise inserts `{name, email, password}` verbatim and returns
the success message.  The resulting collection is the second component. -/
def register_user (store : List User) (req : RegisterRequest) :
    Except HTTPExc String × List User :=
  let (existing, s1) := find_one store (some req.email)
  match existing with
  | some _ => (Except.error ⟨400, "Email already registered"⟩, s1)
  | none =>
    (Except.ok "User registered successfully",
      insert_one s1 { name := req.name, email := req.email, password := req.password })

/-- Embedding of `login_user` (`main.py` lines 96-103): HTTP 401
"Invalid credentials" when no document matches the email or the stored
password differs from the submitted one (same error either way);
otherwise the success message and a freshly issued token. -/
def login_user (store : List User) (req : LoginRequest) (secret : String)
    (now : Nat) : Except HTTPExc (String × RawToken) × List User :=
  let (user?, s1) := find_one store (some req.email)
  match user? with
  | none => (Except.error ⟨401, "Invalid credentials"⟩, s1)
  | some user =>
    if user.password ≠ req.password then
      (Except.error ⟨401, "Invalid credentials"⟩, s1)
    else
      (Except.ok ("Login successful", create_jwt req.email now secret), s1)

/-- A message in the OpenAI chat-completion request body. -/
structure ChatMessage where
  role : String
  content : String
deriving Repr, DecidableEq

/-- One choice of an OpenAI chat-completion response. -/
structure Choice where
  message : ChatMessage
deriving Repr, DecidableEq

/-- An OpenAI chat-completion response: its list of choices. -/
structure Completion where
  choices : List Choice
deriving Repr, DecidableEq

/-- The type of `openai_client.chat.completions.create`: model identifier
and message list to either a completion or the text of a raised
provider-side exception. -/
abbrev CreateFn := String → List ChatMessage → Except String Completion

/-- Response body of a successful chat call (`main.py` line 126). -/
structure ChatResponse where
  user : String
  reply : String
deriving Repr, DecidableEq

/-- The system prompt built by `chat` (`main.py` line 121). -/
def system_prompt (name : String) : String :=
  "You are a helpful assistant for user " ++ name ++ "."

/-- Embedding of the body of `chat` (`main.py` lines 115-128), given the
already-resolved user: one call to the provider with model "gpt-4o-mini"
and the two-message list [system prompt, user message]; on success the
first choice's text content is returned with the user's name.  Any
exception inside the `try` block — including the `IndexError` from
`completion.choices[0]` on an empty choice list — is caught and
re-raised as HTTP 500 with detail "OpenAI error: " plus the exception
text. -/
def chat (req : ChatRequest) (user : User) (create : CreateFn) :
    Except HTTPExc ChatResponse :=
  match create "gpt-4o-mini"
      [{ role := "system", content := system_prompt user.name },
       { role := "user", content := req.message }] with
  | Except.error e => Except.error ⟨500, "OpenAI error: " ++ e⟩
  | Except.ok completion =>
    match completion.choices with
    | [] => Except.error ⟨500, "OpenAI error: list index out of range"⟩
    | choice :: _ => Except.ok { user := user.name, reply := choice.message.content }

/-- Embedding of the dependency `get_current_user` (`main.py` lines
106-113) composed with FastAPI's `HTTPBearer` security scheme
(`security = HTTPBearer()`, auto_error left at its default `True`):
a request without bearer credentials is rejected by the scheme with
HTTP 403 "Not authenticated" before `get_current_user` runs; otherwise
the token is decoded, the `email` claim (possibly absent) is looked up
in the collection, a missing user gives HTTP 401 "User not found", and
a found user document is returned. -/
def get_current_user (store : List User) (credentials : Option RawToken)
    (secret : String) (now : Nat) : Except HTTPExc User × List User :=
  match credentials with
  | none => (Except.error ⟨403, "Not authenticated"⟩, store)
  | some token =>
    match decode_jwt token secret now with
    | Except.error e => (Except.error e, store)
    | Except.ok payload =>
      let (user?, s1) := find_one store payload.email
      match user? with
      | none => (Except.error ⟨401, "User not found"⟩, s1)
      | some user => (Except.ok user, s1)

/-- Observable outcome of one POST /chat request: the HTTP result, how
many calls reached the completion provider, and the collection after
the request. -/
structure ChatOutcome where
  result : Except HTTPExc ChatResponse
  providerCalls : Nat
  store : List User
deriving Repr

/-- Embedding of a full POST /chat request (`main.py` lines 115-128):
the authentication gate runs first; on failure its error is returned
and the provider is never called; on success the handler body runs,
making exactly one provider call. -/
def handle_chat (store : List User) (credentials : Option RawToken)
    (secret : String) (now : Nat) (req : ChatRequest) (create : CreateFn) :
    ChatOutcome :=
  match get_current_user store credentials secret now with
  | (Except.error e, s1) => ⟨Except.error e, 0, s1⟩
  | (Except.ok user, s1) => ⟨chat req user create, 1, s1⟩

/-- A stubbed provider returning a fixed reply, for concrete witnesses. -/
def stub_provider (reply : String) : CreateFn :=
  fun _ _ => Except.ok ⟨[⟨⟨"assistant", reply⟩⟩]⟩

/-- A stubbed provider raising a fixed error, for concrete witnesses. -/
def failing_provider (msg : String) : CreateFn :=
  fun _ _ => Except.error msg

/-- C1: issuing a token for an email embeds the claim set
{email, iat = now, exp = now + 2h} signed with the shared secret, and
decoding it with the same secret at any time before iat + 2 hours
succeeds and yields the original email. -/
theorem token_issue_verify_round_trip (email secret : String) (iat now : Nat)
    (h : now < iat + 7200) :
    create_jwt email iat secret
      = RawToken.valid { email := some email, exp := iat + 7200, iat := iat } secret
    ∧ decode_jwt (create_jwt email iat secret) secret now
      = Except.ok { email := some email, exp := iat + 7200, iat := iat } := by
  refine ⟨rfl, ?_⟩
  have hne : ¬ (iat + 2 * 3600 ≤ now) := by omega
  simp [create_jwt, decode_jwt, hne]

/-- Witness for C1 at email "ana@x.com", secret "s", iat 0, now 100. -/
theorem token_issue_verify_round_trip_witness :
    (100 : Nat) < 0 + 7200
    ∧ decode_jwt (create_jwt "ana@x.com" 0 "s") "s" 100
      = Except.ok { email := some "ana@x.com", exp := 0 + 7200, iat := 0 } :=
  ⟨by decide, (token_issue_verify_round_trip "ana@x.com" "s" 0 100 (by decide)).2⟩

/-- C2: for a structurally well-formed token, decoding fails with the
expired-token error exactly when the signature matches and the expiry has
passed, fails with the invalid-token error exactly when the signature
does not match, and succeeds (yielding the claim set unchanged, with no
other claim required or checked) exactly when the signature matches and
the expiry is still in the future; a structurally malformed token always
fails with the invalid-token error. -/
theorem token_verify_failure_modes (p : JwtPayload) (s secret : String)
    (now : Nat) :
    (decode_jwt (RawToken.valid p s) secret now
        = Except.error ⟨401, "Token expired"⟩ ↔ s = secret ∧ p.exp ≤ now)
    ∧ (decode_jwt (RawToken.valid p s) secret now
        = Except.error ⟨401, "Invalid token"⟩ ↔ s ≠ secret)
    ∧ (decode_jwt (RawToken.valid p s) secret now
        = Except.ok p ↔ s = secret ∧ now < p.exp)
    ∧ (∀ raw : String,
        decode_jwt (RawToken.malformed raw) secret now
          = Except.error ⟨401, "Invalid token"⟩) := by
  refine ⟨?_, ?_, ?_, fun raw => rfl⟩ <;>
    simp only [decode_jwt] <;>
    split_ifs with h1 h2 <;>
    simp_all [Nat.not_le, Nat.lt_iff_add_one_le]

/-- C3 counterexample: the claim asserts that a chat request with a
missing bearer token is rejected with a 401 error; on a concrete request
with no credentials the rejection status is 403 ("Not authenticated",
from the `HTTPBearer` security scheme), not 401. -/
theorem chat_missing_token_status_counterexample :
    (handle_chat [] none "s" 0 { message := "hi" } (stub_provider "hello")).result
      = Except.error ⟨403, "Not authenticated"⟩
    ∧ (403 : Nat) ≠ 401 :=
  ⟨rfl, by decide⟩

/-- C3 amended: a chat request with no bearer credentials is rejected by
the security scheme with HTTP 403 "Not authenticated"; one whose token
is signature-valid but expired is rejected with HTTP 401 "Token
expired"; one whose token is signed with a different secret, or is
structurally malformed, is rejected with HTTP 401 "Invalid token"; in
every rejected case the completion provider is called zero times and
the store is untouched. -/
theorem auth_gate_rejection_amended (store : List User) (secret : String)
    (now : Nat) (req : ChatRequest) (create : CreateFn) :
    handle_chat store none secret now req create
      = ⟨Except.error ⟨403, "Not authenticated"⟩, 0, store⟩
    ∧ (∀ p : JwtPayload, p.exp ≤ now →
        handle_chat store (some (RawToken.valid p secret)) secret now req create
          = ⟨Except.error ⟨401, "Token expired"⟩, 0, store⟩)
    ∧ (∀ (p : JwtPayload) (s : String), s ≠ secret →
        handle_chat store (some (RawToken.valid p s)) secret now req create
          = ⟨Except.error ⟨401, "Invalid token"⟩, 0, store⟩)
    ∧ (∀ raw : String,
        handle_chat store (some (RawToken.malformed raw)) secret now req create
          = ⟨Except.error ⟨401, "Invalid token"⟩, 0, store⟩) := by
  refine ⟨rfl, fun p hp => ?_, fun p s hs => ?_, fun raw => rfl⟩
  · simp [handle_chat, get_current_user, decode_jwt, hp]
  · simp [handle_chat, get_current_user, decode_jwt, hs]

/-- Witness for C3's amended theorem: a token with exp 3 presented at
time 5 is rejected with 401 "Token expired" and zero provider calls. -/
theorem auth_gate_rejection_amended_witness :
    ((⟨none, 3, 0⟩ : JwtPayload).exp ≤ 5)
    ∧ handle_chat [] (some (RawToken.valid ⟨none, 3, 0⟩ "s")) "s" 5
        { message := "hi" } (stub_provider "hello")
      = ⟨Except.error ⟨401, "Token expired"⟩, 0, []⟩ :=
  ⟨by decide,
    (auth_gate_rejection_amended [] "s" 5 { message := "hi" }
      (stub_provider "hello")).2.1 ⟨none, 3, 0⟩ (by decide)⟩

/-- C4: when the presented token decodes successfully, the gate looks up
the embedded email claim in the collection; if no user matches, the
request fails with HTTP 401 "User not found" and the provider is called
zero times; if a user matches, exactly that user record is the one
handed to the chat handler body, with one provider call. -/
theorem auth_gate_user_resolution (store : List User) (tok : RawToken)
    (secret : String) (now : Nat) (req : ChatRequest) (create : CreateFn)
    (p : JwtPayload) (hdec : decode_jwt tok secret now = Except.ok p) :
    (store.find? (fun u => some u.email == p.email) = none →
      handle_chat store (some tok) secret now req create
        = ⟨Except.error ⟨401, "User not found"⟩, 0, store⟩)
    ∧ (∀ u : User, store.find? (fun v => some v.email == p.email) = some u →
      handle_chat store (some tok) secret now req create
        = ⟨chat req u create, 1, store⟩) := by
  constructor
  · intro hnone
    simp [handle_chat, get_current_user, hdec, find_one, hnone]
  · intro u hu
    simp [handle_chat, get_current_user, hdec, find_one, hu]

/-- Witness for C4: the store holds only Ana; a valid token for Ana's
email resolves to Ana's record, which is passed to the handler body. -/
theorem auth_gate_user_resolution_witness :
    decode_jwt (RawToken.valid ⟨some "ana@x.com", 7200, 0⟩ "s") "s" 10
      = Except.ok ⟨some "ana@x.com", 7200, 0⟩
    ∧ [(⟨"Ana", "ana@x.com", "p1"⟩ : User)].find?
        (fun v => some v.email == some "ana@x.com")
      = some ⟨"Ana", "ana@x.com", "p1"⟩
    ∧ handle_chat [⟨"Ana", "ana@x.com", "p1"⟩]
        (some (RawToken.valid ⟨some "ana@x.com", 7200, 0⟩ "s")) "s" 10
        { message := "hi" } (stub_provider "hello")
      = ⟨chat { message := "hi" } ⟨"Ana", "ana@x.com", "p1"⟩ (stub_provider "hello"),
         1, [⟨"Ana", "ana@x.com", "p1"⟩]⟩ :=
  ⟨rfl, rfl,
    (auth_gate_user_resolution [⟨"Ana", "ana@x.com", "p1"⟩]
        (RawToken.valid ⟨some "ana@x.com", 7200, 0⟩ "s") "s" 10
        { message := "hi" } (stub_provider "hello")
        ⟨some "ana@x.com", 7200, 0⟩ rfl).2
      ⟨"Ana", "ana@x.com", "p1"⟩ rfl⟩

/-- C5: registering fails with HTTP 400 "Email already registered" and
leaves the collection unchanged when a document with the email already
exists; otherwise the record {name, email, password} is appended
verbatim (the password stored as submitted, an empty password included)
and the success message returned; and after a successful registration,
registering any request with the same email fails with the duplicate
error and leaves the collection unchanged. -/
theorem register_user_spec (store : List User) (req : RegisterRequest) :
    (∀ u : User, store.find? (fun v => some v.email == some req.email) = some u →
      register_user store req
        = (Except.error ⟨400, "Email already registered"⟩, store))
    ∧ (store.find? (fun v => some v.email == some req.email) = none →
      register_user store req
        = (Except.ok "User registered successfully",
           store ++ [{ name := req.name, email := req.email, password := req.password }]))
    ∧ (∀ req' : RegisterRequest, req'.email = req.email →
        store.find? (fun v => some v.email == some req.email) = none →
        register_user (register_user store req).2 req'
          = (Except.error ⟨400, "Email already registered"⟩,
             (register_user store req).2)) := by
  refine ⟨fun u hu => ?_, fun hnone => ?_, fun req' heq hnone => ?_⟩
  · simp only [register_user, find_one]
    rw [hu]
  · simp only [register_user, find_one]
    rw [hnone]
    rfl
  · have h2 : (register_user store req).2
        = store ++ [{ name := req.name, email := req.email, password := req.password }] := by
      simp only [register_user, find_one]
      rw [hnone]
      rfl
    rw [h2]
    simp only [register_user, find_one, heq]
    rw [List.find?_append, hnone]
    simp

/-- Witness for C5: registering Ana into the empty store succeeds and a
second registration with the same email fails with the duplicate error,
leaving the store as it was after the first call. -/
theorem register_user_spec_witness :
    ((⟨"Ana2", "ana@x.com", "q"⟩ : RegisterRequest).email
      = (⟨"Ana", "ana@x.com", "p1"⟩ : RegisterRequest).email)
    ∧ ([] : List User).find? (fun v => some v.email == some "ana@x.com") = none
    ∧ register_user (register_user [] ⟨"Ana", "ana@x.com", "p1"⟩).2
        ⟨"Ana2", "ana@x.com", "q"⟩
      = (Except.error ⟨400, "Email already registered"⟩,
         (register_user [] ⟨"Ana", "ana@x.com", "p1"⟩).2) :=
  ⟨rfl, rfl,
    (register_user_spec [] ⟨"Ana", "ana@x.com", "p1"⟩).2.2
      ⟨"Ana2", "ana@x.com", "q"⟩ rfl rfl⟩

/-- C6: logging in fails with HTTP 401 "Invalid credentials" both when no
document matches the email and when the stored password differs from the
submitted one (the identical error in both cases); when the stored
password equals the submitted one, it returns the success message
together with a freshly issued token for the submitted email. -/
theorem login_user_spec (store : List User) (req : LoginRequest)
    (secret : String) (now : Nat) :
    (store.find? (fun u => some u.email == some req.email) = none →
      login_user store req secret now
        = (Except.error ⟨401, "Invalid credentials"⟩, store))
    ∧ (∀ u : User, store.find? (fun v => some v.email == some req.email) = some u →
        u.password ≠ req.password →
        login_user store req secret now
          = (Except.error ⟨401, "Invalid credentials"⟩, store))
    ∧ (∀ u : User, store.find? (fun v => some v.email == some req.email) = some u →
        u.password = req.password →
        login_user store req secret now
          = (Except.ok ("Login successful", create_jwt req.email now secret), store)) := by
  refine ⟨fun hnone => ?_, fun u hu hne => ?_, fun u hu heq => ?_⟩
  · simp only [login_user, find_one]
    rw [hnone]
  · simp only [login_user, find_one]
    rw [hu]
    simp [hne]
  · simp only [login_user, find_one]
    rw [hu]
    simp [heq]

/-- Witness for C6: with Ana stored, the wrong password is rejected with
the same invalid-credentials error used for unknown emails. -/
theorem login_user_spec_witness :
    [(⟨"Ana", "ana@x.com", "p1"⟩ : User)].find?
        (fun v => some v.email == some "ana@x.com")
      = some ⟨"Ana", "ana@x.com", "p1"⟩
    ∧ ("p1" : String) ≠ "wrong"
    ∧ login_user [⟨"Ana", "ana@x.com", "p1"⟩] ⟨"ana@x.com", "wrong"⟩ "s" 0
      = (Except.error ⟨401, "Invalid credentials"⟩, [⟨"Ana", "ana@x.com", "p1"⟩]) :=
  ⟨rfl, by decide,
    (login_user_spec [⟨"Ana", "ana@x.com", "p1"⟩] ⟨"ana@x.com", "wrong"⟩ "s" 0).2.1
      ⟨"Ana", "ana@x.com", "p1"⟩ rfl (by decide)⟩

/-- C7: for an authenticated chat request, the handler body produces the
system prompt referencing the user's name, the result of the single
provider call with the fixed model "gpt-4o-mini" is the first choice's
text content returned verbatim with the user's name, the full request
makes exactly one provider call, and the outcome depends on the provider
only through that one (system prompt, current message) call — no
conversation history is carried. -/
theorem chat_success_path (store : List User) (credentials : Option RawToken)
    (secret : String) (now : Nat) (user : User) (req : ChatRequest)
    (create : CreateFn) (choice : Choice) (rest : List Choice)
    (hauth : (get_current_user store credentials secret now).1 = Except.ok user)
    (hresp : create "gpt-4o-mini"
        [{ role := "system", content := system_prompt user.name },
         { role := "user", content := req.message }]
      = Except.ok ⟨choice :: rest⟩) :
    chat req user create = Except.ok ⟨user.name, choice.message.content⟩
    ∧ (handle_chat store credentials secret now req create).result
        = Except.ok ⟨user.name, choice.message.content⟩
    ∧ (handle_chat store credentials secret now req create).providerCalls = 1
    ∧ (∀ create' : CreateFn,
        create' "gpt-4o-mini"
            [{ role := "system", content := system_prompt user.name },
             { role := "user", content := req.message }]
          = create "gpt-4o-mini"
            [{ role := "system", content := system_prompt user.name },
             { role := "user", content := req.message }] →
        chat req user create' = chat req user create) := by
  have hchat : chat req user create = Except.ok ⟨user.name, choice.message.content⟩ := by
    simp only [chat]
    rw [hresp]
  have hpair : get_current_user store credentials secret now
      = (Except.ok user, (get_current_user store credentials secret now).2) := by
    rw [← hauth]
  have hhandle : handle_chat store credentials secret now req create
      = ⟨chat req user create, 1, (get_current_user store credentials secret now).2⟩ := by
    rw [handle_chat, hpair]
  refine ⟨hchat, ?_, ?_, fun create' heq => ?_⟩
  · rw [hhandle, hchat]
  · rw [hhandle]
  · simp only [chat]
    rw [heq]

/-- Witness for C7, the end-to-end scenario of the spec: Ana registers,
logs in at time 0, and chats at time 10 with a stubbed provider
returning "hello"; the reply is {user := "Ana", reply := "hello"} with
exactly one provider call. -/
theorem chat_success_path_witness :
    (get_current_user (register_user [] ⟨"Ana", "ana@x.com", "p1"⟩).2
        (some (create_jwt "ana@x.com" 0 "s")) "s" 10).1
      = Except.ok ⟨"Ana", "ana@x.com", "p1"⟩
    ∧ stub_provider "hello" "gpt-4o-mini"
        [{ role := "system", content := system_prompt "Ana" },
         { role := "user", content := "hi" }]
      = Except.ok ⟨[⟨⟨"assistant", "hello"⟩⟩]⟩
    ∧ (handle_chat (register_user [] ⟨"Ana", "ana@x.com", "p1"⟩).2
        (some (create_jwt "ana@x.com" 0 "s")) "s" 10 { message := "hi" }
        (stub_provider "hello")).result
      = Except.ok ⟨"Ana", "hello"⟩
    ∧ (handle_chat (register_user [] ⟨"Ana", "ana@x.com", "p1"⟩).2
        (some (create_jwt "ana@x.com" 0 "s")) "s" 10 { message := "hi" }
        (stub_provider "hello")).providerCalls = 1 :=
  ⟨rfl, rfl,
    (chat_success_path (register_user [] ⟨"Ana", "ana@x.com", "p1"⟩).2
      (some (create_jwt "ana@x.com" 0 "s")) "s" 10 ⟨"Ana", "ana@x.com", "p1"⟩
      { message := "hi" } (stub_provider "hello") ⟨⟨"assistant", "hello"⟩⟩ []
      rfl rfl).2.1,
    (chat_success_path (register_user [] ⟨"Ana", "ana@x.com", "p1"⟩).2
      (some (create_jwt "ana@x.com" 0 "s")) "s" 10 ⟨"Ana", "ana@x.com", "p1"⟩
      { message := "hi" } (stub_provider "hello") ⟨⟨"assistant", "hello"⟩⟩ []
      rfl rfl).2.2.1⟩

/-- C8: for an authenticated chat request, a provider-raised error is
caught and surfaced as HTTP 500 whose detail is "OpenAI error: "
followed by the provider's error text; a malformed response with no
choices is likewise surfaced as HTTP 500 through the caught
`IndexError`; and no retry occurs: a full chat request makes at most
one provider call. -/
theorem chat_upstream_failure (user : User) (req : ChatRequest)
    (create : CreateFn) (e : String)
    (herr : create "gpt-4o-mini"
        [{ role := "system", content := system_prompt user.name },
         { role := "user", content := req.message }]
      = Except.error e) :
    chat req user create = Except.error ⟨500, "OpenAI error: " ++ e⟩
    ∧ (∀ g : CreateFn,
        g "gpt-4o-mini"
            [{ role := "system", content := system_prompt user.name },
             { role := "user", content := req.message }]
          = Except.ok ⟨[]⟩ →
        chat req user g = Except.error ⟨500, "OpenAI error: list index out of range"⟩)
    ∧ (∀ (store : List User) (credentials : Option RawToken) (secret : String)
          (now : Nat),
        (handle_chat store credentials secret now req create).providerCalls ≤ 1) := by
  refine ⟨?_, fun g hg => ?_, fun store credentials secret now => ?_⟩
  · simp only [chat]
    rw [herr]
  · simp only [chat]
    rw [hg]
  · rw [handle_chat]
    rcases get_current_user store credentials secret now with ⟨r, s1⟩
    cases r <;> simp

/-- Witness for C8: a provider raising "Rate limit exceeded" yields
HTTP 500 with detail "OpenAI error: Rate limit exceeded". -/
theorem chat_upstream_failure_witness :
    failing_provider "Rate limit exceeded" "gpt-4o-mini"
        [{ role := "system", content := system_prompt "Ana" },
         { role := "user", content := "hi" }]
      = Except.error "Rate limit exceeded"
    ∧ chat { message := "hi" } ⟨"Ana", "ana@x.com", "p1"⟩
        (failing_provider "Rate limit exceeded")
      = Except.error ⟨500, "OpenAI error: Rate limit exceeded"⟩ :=
  ⟨rfl,
    (chat_upstream_failure ⟨"Ana", "ana@x.com", "p1"⟩ { message := "hi" }
      (failing_provider "Rate limit exceeded") "Rate limit exceeded" rfl).1⟩

/-- C9: login, the authentication gate and the chat handler return the
collection exactly as given — they only read it — and the only write in
the system is the append performed by a successful registration: the
collection after register is either unchanged (duplicate) or the old
collection with the new record appended, so every stored record
survives every operation unmodified. -/
theorem store_frame_property (store : List User) (rreq : RegisterRequest)
    (lreq : LoginRequest) (credentials : Option RawToken) (secret : String)
    (now : Nat) (creq : ChatRequest) (create : CreateFn) :
    (login_user store lreq secret now).2 = store
    ∧ (get_current_user store credentials secret now).2 = store
    ∧ (handle_chat store credentials secret now creq create).store = store
    ∧ ((register_user store rreq).2 = store
       ∨ (register_user store rreq).2
         = store ++ [{ name := rreq.name, email := rreq.email, password := rreq.password }])
    ∧ (∀ u : User, u ∈ store → u ∈ (register_user store rreq).2) := by
  have hgate : (get_current_user store credentials secret now).2 = store := by
    cases credentials with
    | none => rfl
    | some tok =>
      simp only [get_current_user]
      cases hd : decode_jwt tok secret now with
      | error e => rfl
      | ok payload =>
        simp only [find_one]
        cases hf : store.find? (fun u => some u.email == payload.email) <;> rfl
  refine ⟨?_, hgate, ?_, ?_, ?_⟩
  · simp only [login_user, find_one]
    cases hf : store.find? (fun u => some u.email == some lreq.email) with
    | none => rfl
    | some u =>
      dsimp only
      split <;> rfl
  · rw [handle_chat]
    have h2 := hgate
    rcases hg : get_current_user store credentials secret now with ⟨r, s1⟩
    rw [hg] at h2
    cases r with
    | error e => exact h2
    | ok u => exact h2
  · simp only [register_user, find_one]
    cases hf : store.find? (fun v => some v.email == some rreq.email) with
    | none => exact Or.inr rfl
    | some u => exact Or.inl rfl
  · intro u hu
    simp only [register_user, find_one]
    cases hf : store.find? (fun v => some v.email == some rreq.email) with
    | none => exact List.mem_append_left _ hu
    | some u' => exact hu

/-- C10: a token correctly signed with the shared secret and unexpired
but carrying no email claim still decodes successfully; the gate then
looks up a `none` email, which matches no stored document, and the
request is rejected with HTTP 401 "User not found" — not with the
invalid-token error — with zero provider calls. -/
theorem missing_email_claim_user_not_found (store : List User)
    (secret : String) (xp iat now : Nat) (req : ChatRequest)
    (create : CreateFn) (h : now < xp) :
    decode_jwt (RawToken.valid ⟨none, xp, iat⟩ secret) secret now
      = Except.ok ⟨none, xp, iat⟩
    ∧ handle_chat store (some (RawToken.valid ⟨none, xp, iat⟩ secret))
        secret now req create
      = ⟨Except.error ⟨401, "User not found"⟩, 0, store⟩ := by
  have hfind : store.find? (fun u => some u.email == (none : Option String)) = none :=
    List.find?_eq_none.mpr (fun x _ habs => Bool.noConfusion habs)
  have hdec : decode_jwt (RawToken.valid ⟨none, xp, iat⟩ secret) secret now
      = Except.ok ⟨none, xp, iat⟩ := by
    have hne : ¬ ((⟨none, xp, iat⟩ : JwtPayload).exp ≤ now) := by
      simp only [JwtPayload.exp]
      omega
    simp [decode_jwt, hne]
  refine ⟨hdec, ?_⟩
  simp only [handle_chat, get_current_user, find_one]
  rw [hdec]
  simp only [JwtPayload.email]
  rw [hfind]

/-- Witness for C10: a token with no email claim, signed with "s" and
expiring at 100, is presented at time 5 over a store holding Ana: the
request fails with 401 "User not found" and zero provider calls. -/
theorem missing_email_claim_user_not_found_witness :
    (5 : Nat) < 100
    ∧ handle_chat [⟨"Ana", "ana@x.com", "p1"⟩]
        (some (RawToken.valid ⟨none, 100, 0⟩ "s")) "s" 5 { message := "hi" }
        (stub_provider "hello")
      = ⟨Except.error ⟨401, "User not found"⟩, 0, [⟨"Ana", "ana@x.com", "p1"⟩]⟩ :=
  ⟨by decide,
    (missing_email_claim_user_not_found [⟨"Ana", "ana@x.com", "p1"⟩] "s" 100 0 5
      { message := "hi" } (stub_provider "hello") (by decide)).2⟩
